import Mathlib

/-!
Verification development for the Agri-Policy dashboard
(`IREL_AG2050_Final_Visual_Attribution.py`).

The script's computational core is embedded shallowly:
* the dataset is a `List MetricRow` (one row per CSV record),
* `data_filtered = df[(df["County"] == county) & (df["Year"] == year)]`
  becomes `filterKey`,
* the toggle application (lines 27-38) becomes `adjustedMetrics`; the
  `.values[0]` extraction raises `IndexError` on an empty selection, so the
  result is an `Option` with `none` for that uncaught exception,
* the economic formulas (lines 104-111) become `economicImpact`,
* `generate_persona_response` (lines 51-87) returns a `PersonaResponse`:
  the two fixed sentinel strings are kept verbatim, and each persona
  template is a constructor carrying the numeric/text arguments that the
  Python f-string interpolates (the surrounding prose is presentation).

Numeric values are rationals: every constant in the script
(1.1, 1.15, 1.2, 1.05, 0.22, 85, 120, 45) is exactly representable.
-/

/-- One row of `IREL_AG2050_Policy_Simulation_Smoothed.csv`
(columns County, Year, CRISPR_YieldBoost, SolarAdoption, BiomassOutput,
CarbonCreditsEarned). -/
structure MetricRow where
  county : String
  year : Int
  crispr_yieldBoost : ℚ
  solarAdoption : ℚ
  biomassOutput : ℚ
  carbonCreditsEarned : ℚ
deriving DecidableEq

/-- The three sidebar checkboxes (lines 19-21). -/
structure Toggles where
  agro_toggle : Bool
  solar_toggle : Bool
  bio_toggle : Bool
deriving DecidableEq

/-- Line 24 (and the identical filter on line 52):
`df[(df["County"] == county) & (df["Year"] == year)]`. -/
def filterKey (df : List MetricRow) (county : String) (year : Int) : List MetricRow :=
  df.filter (fun r => r.county == county && r.year == year)

/-- The four adjusted KPI values (`yield_boost`, `solar_pct`, `biomass`,
`carbon_offset` after lines 27-38). -/
structure AdjustedMetrics where
  yield_boost : ℚ
  solar_pct : ℚ
  biomass : ℚ
  carbon_offset : ℚ
deriving DecidableEq

/-- Lines 27-38: extract the first matching row with `.values[0]` and apply
the three toggles. On an empty selection `.values[0]` raises an uncaught
`IndexError`; that crash is `none`. -/
def adjustedMetrics (df : List MetricRow) (county : String) (year : Int)
    (t : Toggles) : Option AdjustedMetrics :=
  match filterKey df county year with
  | [] => none
  | row :: _ =>
    some { yield_boost :=
             if t.agro_toggle then row.crispr_yieldBoost * 1.1 else row.crispr_yieldBoost,
           solar_pct :=
             if t.solar_toggle then row.solarAdoption * 1.15 else row.solarAdoption,
           biomass :=
             if t.bio_toggle then row.biomassOutput * 1.2 else row.biomassOutput,
           carbon_offset :=
             if t.bio_toggle then row.carbonCreditsEarned * 1.05 else row.carbonCreditsEarned }

/-- Line 104: `grain_price_per_kg = 0.22  # €/kg`. -/
def grain_price_per_kg : ℚ := 0.22

/-- Line 105: `price_per_tonne = 85  # €/mtCO2 (EU ETS)`. -/
def price_per_tonne : ℚ := 85

/-- The five figures of lines 106-111. -/
structure EconomicBreakdown where
  yield_revenue : ℚ
  solar_savings : ℚ
  bio_revenue : ℚ
  carbon_revenue : ℚ
  total_impact : ℚ
deriving DecidableEq

/-- Lines 106-111: the four revenue streams and their sum. -/
def economicImpact (m : AdjustedMetrics) : EconomicBreakdown :=
  let solar_savings := m.solar_pct * 120
  let bio_revenue := m.biomass * 45
  let carbon_revenue := m.carbon_offset * price_per_tonne
  let yield_revenue := m.yield_boost * grain_price_per_kg
  { yield_revenue := yield_revenue,
    solar_savings := solar_savings,
    bio_revenue := bio_revenue,
    carbon_revenue := carbon_revenue,
    total_impact := yield_revenue + solar_savings + bio_revenue + carbon_revenue }

/-- Line 80: `risk_score = 100 - min(100, yield_val/6 + solar_val + bio_val*2)`. -/
def risk_score (yield_val solar_val bio_val : ℚ) : ℚ :=
  100 - min 100 (yield_val / 6 + solar_val + bio_val * 2)

/-- Result of `generate_persona_response`. `sentinel` carries the two fixed
strings returned verbatim (lines 54 and 87); each persona constructor
carries the values its f-string template interpolates: `eirea` the yield
value (line 63), `solara` the solar value, the projected `solar_val*1.15`
and `year + 1` (line 70), `graina` the yield value, the carbon value and
the quarter `year % 4 + 1` (line 77), `aiSceal` the risk score (line 83). -/
inductive PersonaResponse where
  | sentinel (msg : String)
  | eirea (year : Int) (county : String) (yield_val : ℚ)
  | solara (year : Int) (county : String) (solar_val projected : ℚ) (next_year : Int)
  | graina (county : String) (year : Int) (yield_val carbon_val : ℚ) (quarter : Int)
  | aiSceal (year : Int) (county : String) (score : ℚ)
deriving DecidableEq

/-- Lines 51-87: `generate_persona_response(persona, county, year, df)`.
The empty-row check (line 53) returns the no-data sentinel; otherwise the
first matching row's four raw fields feed the `if/elif/else` chain on the
persona name. -/
def generate_persona_response (persona county : String) (year : Int)
    (df : List MetricRow) : PersonaResponse :=
  match filterKey df county year with
  | [] => .sentinel "No data available for this county and year."
  | row :: _ =>
    let yield_val := row.crispr_yieldBoost
    let solar_val := row.solarAdoption
    let bio_val := row.biomassOutput
    let carbon_val := row.carbonCreditsEarned
    if persona == "ÉIREA" then
      .eirea year county yield_val
    else if persona == "SOLARA" then
      .solara year county solar_val (solar_val * 1.15) (year + 1)
    else if persona == "GRAINA" then
      .graina county year yield_val carbon_val (year % 4 + 1)
    else if persona == "AI-SCEAL" then
      .aiSceal year county (risk_score yield_val solar_val bio_val)
    else
      .sentinel "No persona selected."

/-- What one interaction computes for the presentation layer. -/
structure RequestOutput where
  metrics : AdjustedMetrics
  impact : EconomicBreakdown
  persona_response : PersonaResponse
deriving DecidableEq

/-- One script run for a selected (county, year, toggles, persona): the
adjusted KPIs (lines 27-38), the economic breakdown (lines 104-111) and the
persona response (line 96). `none` is the uncaught `IndexError` of line 27
when no row matches the key — the script crashes before reaching the
persona generator. -/
def processRequest (df : List MetricRow) (county : String) (year : Int)
    (t : Toggles) (persona : String) : Option RequestOutput :=
  match adjustedMetrics df county year t with
  | none => none
  | some m =>
    some { metrics := m,
           impact := economicImpact m,
           persona_response := generate_persona_response persona county year df }

/-- Sample row used by the spec's worked example and by witnesses. -/
def sampleRow : MetricRow :=
  { county := "Cork", year := 2025, crispr_yieldBoost := 1000,
    solarAdoption := 30, biomassOutput := 50, carbonCreditsEarned := 10 }

/-- Claim C1: for every metric row and every toggle combination, the
adjusted metrics equal the row's base values with each multiplier applied
exactly when its toggle is on (1.10 to YieldBoost iff AgroBoost,
1.15 to SolarAdoption iff SolarBoost, 1.20 to BiomassOutput and
1.05 to CarbonCredits iff BioBoost). -/
theorem toggles_apply_multipliers_iff_on (df : List MetricRow) (county : String)
    (year : Int) (r : MetricRow) (t : Toggles)
    (h : (filterKey df county year).head? = some r) :
    adjustedMetrics df county year t =
      some { yield_boost := r.crispr_yieldBoost * (if t.agro_toggle then 1.1 else 1),
             solar_pct := r.solarAdoption * (if t.solar_toggle then 1.15 else 1),
             biomass := r.biomassOutput * (if t.bio_toggle then 1.2 else 1),
             carbon_offset := r.carbonCreditsEarned * (if t.bio_toggle then 1.05 else 1) } := by
  unfold adjustedMetrics
  cases e : filterKey df county year with
  | nil => rw [e] at h; simp at h
  | cons a tail =>
    rw [e] at h
    simp only [List.head?_cons, Option.some.injEq] at h
    subst h
    obtain ⟨ta, ts, tb⟩ := t
    cases ta <;> cases ts <;> cases tb <;> simp [mul_one]

/-- Witness for C1 at a concrete row and toggle setting. -/
theorem toggles_apply_multipliers_iff_on_witness :
    (filterKey [sampleRow] "Cork" 2025).head? = some sampleRow ∧
    adjustedMetrics [sampleRow] "Cork" 2025 ⟨true, true, true⟩ =
      some { yield_boost := sampleRow.crispr_yieldBoost * (if true then 1.1 else 1),
             solar_pct := sampleRow.solarAdoption * (if true then 1.15 else 1),
             biomass := sampleRow.biomassOutput * (if true then 1.2 else 1),
             carbon_offset := sampleRow.carbonCreditsEarned * (if true then 1.05 else 1) } :=
  ⟨by decide, toggles_apply_multipliers_iff_on [sampleRow] "Cork" 2025 sampleRow
      ⟨true, true, true⟩ (by decide)⟩

/-- Claim C3: the economic breakdown satisfies
YieldRevenue = YieldBoost * 0.22, SolarSavings = SolarAdoption * 120,
BiomassRevenue = BiomassOutput * 45, CarbonRevenue = CarbonCredits * 85,
and Total is the sum of the four components. -/
theorem economicImpact_breakdown_eq (m : AdjustedMetrics) :
    (economicImpact m).yield_revenue = m.yield_boost * 0.22 ∧
    (economicImpact m).solar_savings = m.solar_pct * 120 ∧
    (economicImpact m).bio_revenue = m.biomass * 45 ∧
    (economicImpact m).carbon_revenue = m.carbon_offset * 85 ∧
    (economicImpact m).total_impact =
      (economicImpact m).yield_revenue + (economicImpact m).solar_savings +
      (economicImpact m).bio_revenue + (economicImpact m).carbon_revenue := by
  refine ⟨rfl, rfl, rfl, rfl, rfl⟩

/-- Claim C4: the spec's worked example. Row {Yield=1000, Solar=30,
Biomass=50, Carbon=10} with toggles {Agro=true, Solar=false, Bio=true}
yields adjusted metrics {1100, 30, 60, 10.5} and breakdown
{242, 3600, 2700, 892.5, 7434.5}. -/
theorem example_row_cork_2025_eval :
    adjustedMetrics [sampleRow] "Cork" 2025 ⟨true, false, true⟩ =
      some ⟨1100, 30, 60, 10.5⟩ ∧
    economicImpact ⟨1100, 30, 60, 10.5⟩ = ⟨242, 3600, 2700, 892.5, 7434.5⟩ := by
  constructor
  · simp only [adjustedMetrics, filterKey, sampleRow, List.filter]
    norm_num
  · simp only [economicImpact, grain_price_per_kg, price_per_tonne, EconomicBreakdown.mk.injEq]
    norm_num

/-- Claim C7: applying AgroBoost alone multiplies YieldBoost by exactly
1.10 and leaves SolarAdoption, BiomassOutput and CarbonCredits at their
base values. -/
theorem agro_alone_scales_only_yield (df : List MetricRow) (county : String)
    (year : Int) (r : MetricRow)
    (h : (filterKey df county year).head? = some r) :
    adjustedMetrics df county year ⟨true, false, false⟩ =
      some { yield_boost := r.crispr_yieldBoost * 1.1,
             solar_pct := r.solarAdoption,
             biomass := r.biomassOutput,
             carbon_offset := r.carbonCreditsEarned } := by
  unfold adjustedMetrics
  cases e : filterKey df county year with
  | nil => rw [e] at h; simp at h
  | cons a tail =>
    rw [e] at h
    simp only [List.head?_cons, Option.some.injEq] at h
    subst h
    simp

/-- Witness for C7 at a concrete row. -/
theorem agro_alone_scales_only_yield_witness :
    (filterKey [sampleRow] "Cork" 2025).head? = some sampleRow ∧
    adjustedMetrics [sampleRow] "Cork" 2025 ⟨true, false, false⟩ =
      some { yield_boost := sampleRow.crispr_yieldBoost * 1.1,
             solar_pct := sampleRow.solarAdoption,
             biomass := sampleRow.biomassOutput,
             carbon_offset := sampleRow.carbonCreditsEarned } :=
  ⟨by decide, agro_alone_scales_only_yield [sampleRow] "Cork" 2025 sampleRow (by decide)⟩

/-- A second row with the same (County, Year) key as `sampleRow` but
different metric values, used to exercise the duplicate-key path. -/
def dupRow : MetricRow :=
  { county := "Cork", year := 2025, crispr_yieldBoost := 999,
    solarAdoption := 1, biomassOutput := 2, carbonCreditsEarned := 3 }

/-- Claim C2 (evaluated at the failing input): for a (County, Year) key with
no matching row, the persona generator alone does return the fixed no-data
sentinel, but the metric path (`.values[0]` on the empty selection,
line 27) raises an uncaught IndexError — modelled as `none` — so the run
crashes instead of showing "no data". -/
theorem missing_key_metric_path_raises :
    generate_persona_response "ÉIREA" "Cork" 2026 [sampleRow] =
      .sentinel "No data available for this county and year." ∧
    adjustedMetrics [sampleRow] "Cork" 2026 ⟨false, false, false⟩ = none ∧
    processRequest [sampleRow] "Cork" 2026 ⟨false, false, false⟩ "ÉIREA" = none := by
  refine ⟨by decide, by decide, by decide⟩

/-- Claim C5 is false as stated: there is no input making the AI-SCEAL risk
score `100 - min(100, Yield/6 + Solar + Biomass*2)` negative. -/
theorem no_negative_risk_score : ¬ ∃ y s b : ℚ, risk_score y s b < 0 := by
  rintro ⟨y, s, b, hlt⟩
  have hle : min 100 (y / 6 + s + b * 2) ≤ 100 := min_le_left _ _
  rw [risk_score] at hlt
  linarith

/-- Claim C5 amended: the `min` is a lower clamp on the score, not an upper
cap — the risk score equals `max(0, 100 - (Yield/6 + Solar + Biomass*2))`
and in particular is never negative. -/
theorem risk_score_lower_clamped (y s b : ℚ) :
    0 ≤ risk_score y s b ∧
    risk_score y s b = max 0 (100 - (y / 6 + s + b * 2)) := by
  unfold risk_score
  rcases le_total (100 : ℚ) (y / 6 + s + b * 2) with h | h
  · rw [min_eq_left h, max_eq_left (by linarith : 100 - (y / 6 + s + b * 2) ≤ 0)]
    norm_num
  · rw [min_eq_right h, max_eq_right (by linarith : (0 : ℚ) ≤ 100 - (y / 6 + s + b * 2))]
    exact ⟨by linarith, rfl⟩

/-- Claim C6: for every resolved row, the AI-SCEAL response's score is
exactly `100 - min(100, Yield/6 + Solar + Biomass*2)` computed from the
row's raw YieldBoost, SolarAdoption and BiomassOutput fields. -/
theorem aisceal_score_formula (df : List MetricRow) (county : String)
    (year : Int) (r : MetricRow)
    (h : (filterKey df county year).head? = some r) :
    generate_persona_response "AI-SCEAL" county year df =
      .aiSceal year county
        (risk_score r.crispr_yieldBoost r.solarAdoption r.biomassOutput) := by
  unfold generate_persona_response
  cases e : filterKey df county year with
  | nil => rw [e] at h; simp at h
  | cons a tail =>
    rw [e] at h
    simp only [List.head?_cons, Option.some.injEq] at h
    subst h
    rfl

/-- Witness for C6 at a concrete row. -/
theorem aisceal_score_formula_witness :
    (filterKey [sampleRow] "Cork" 2025).head? = some sampleRow ∧
    generate_persona_response "AI-SCEAL" "Cork" 2025 [sampleRow] =
      .aiSceal 2025 "Cork"
        (risk_score sampleRow.crispr_yieldBoost sampleRow.solarAdoption
          sampleRow.biomassOutput) :=
  ⟨by decide, aisceal_score_formula [sampleRow] "Cork" 2025 sampleRow (by decide)⟩

/-- Claim C8: the persona response is a function of the row, the key and
the persona only — changing the three toggles never changes it. -/
theorem persona_response_toggle_independent (df : List MetricRow)
    (county : String) (year : Int) (t1 t2 : Toggles) (persona : String) :
    (processRequest df county year t1 persona).map RequestOutput.persona_response =
      (processRequest df county year t2 persona).map RequestOutput.persona_response := by
  unfold processRequest adjustedMetrics
  cases e : filterKey df county year <;> simp

/-- Claim C9: any persona key other than the four known ones yields the
fixed "no persona" sentinel on a resolved row, rather than failing. -/
theorem unknown_persona_sentinel (persona county : String) (year : Int)
    (df : List MetricRow) (hres : filterKey df county year ≠ [])
    (h1 : persona ≠ "ÉIREA") (h2 : persona ≠ "SOLARA")
    (h3 : persona ≠ "GRAINA") (h4 : persona ≠ "AI-SCEAL") :
    generate_persona_response persona county year df =
      .sentinel "No persona selected." := by
  unfold generate_persona_response
  cases e : filterKey df county year with
  | nil => exact absurd e hres
  | cons a tail => simp [h1, h2, h3, h4]

/-- Witness for C9 with the unknown persona key "POET". -/
theorem unknown_persona_sentinel_witness :
    (filterKey [sampleRow] "Cork" 2025 ≠ [] ∧
      "POET" ≠ "ÉIREA" ∧ "POET" ≠ "SOLARA" ∧ "POET" ≠ "GRAINA" ∧
      "POET" ≠ "AI-SCEAL") ∧
    generate_persona_response "POET" "Cork" 2025 [sampleRow] =
      .sentinel "No persona selected." :=
  ⟨⟨by decide, by decide, by decide, by decide, by decide⟩,
   unknown_persona_sentinel "POET" "Cork" 2025 [sampleRow] (by decide) (by decide)
     (by decide) (by decide) (by decide)⟩

/-- Claim C10: when several rows match the selected key, both the
adjusted-metrics computation and the persona generator silently use the
first matching row — extra matching rows are ignored, never rejected. -/
theorem first_matching_row_used (r r2 : MetricRow) (rest : List MetricRow)
    (county : String) (year : Int) (t : Toggles) (persona : String)
    (h : (r.county == county && r.year == year) = true)
    (h2 : (r2.county == county && r2.year == year) = true) :
    adjustedMetrics (r :: r2 :: rest) county year t =
      adjustedMetrics [r] county year t ∧
    generate_persona_response persona county year (r :: r2 :: rest) =
      generate_persona_response persona county year [r] := by
  constructor
  · simp [adjustedMetrics, filterKey, List.filter_cons, h]
  · simp [generate_persona_response, filterKey, List.filter_cons, h]

/-- Witness for C10: two distinct rows share the key (Cork, 2025); the
output equals the one computed from the first row alone. -/
theorem first_matching_row_used_witness :
    ((sampleRow.county == "Cork" && sampleRow.year == (2025 : Int)) = true ∧
      (dupRow.county == "Cork" && dupRow.year == (2025 : Int)) = true) ∧
    (adjustedMetrics [sampleRow, dupRow] "Cork" 2025 ⟨false, false, false⟩ =
        adjustedMetrics [sampleRow] "Cork" 2025 ⟨false, false, false⟩ ∧
      generate_persona_response "ÉIREA" "Cork" 2025 [sampleRow, dupRow] =
        generate_persona_response "ÉIREA" "Cork" 2025 [sampleRow]) :=
  ⟨⟨by decide, by decide⟩,
   first_matching_row_used sampleRow dupRow [] "Cork" 2025 ⟨false, false, false⟩
     "ÉIREA" (by decide) (by decide)⟩
